import Mathlib

/-!
# A verification of the UDP tun/tap tunnel (tunneludp_v1.c / tunneludp_v2.c)

A shallow embedding of the two program variants of the simplistic UDP
tunnel: the handshake over a magic word, the bind/setup error paths, the
option parsing, and the select-driven relay loop that moves fixed-size
buffers between a tun/tap interface and a UDP socket.

Each relay-loop iteration is embedded as a pure function from the loop
state and the environment's responses (select outcome, I/O call results,
incoming bytes and source addresses) to an outcome (continue or exit) and
the ordered list of observable events the iteration performs (sends,
interface writes, peer-address assignments, diagnostics).
-/

namespace Tunnel

/-- An IPv4 socket address as held in a `sockaddr_in`: host address and port. -/
structure Addr where
  ip : Nat
  port : Nat
deriving DecidableEq, Repr

/-- `#define BUFSIZE 4096` (both variants). -/
def BUFSIZE : Nat := 4096

/-- `#define CLIENT 0`. -/
def CLIENT : Nat := 0

/-- `#define SERVER 1`. -/
def SERVER : Nat := 1

/-- `#define PORT 55566` in tunneludp_v1.c. -/
def v1_PORT : Nat := 55566

/-- `#define PORT 5588` in tunneludp_v2.c (default of the `port` variable). -/
def v2_PORT : Nat := 5588

/-- `IFF_TUN` from linux/if_tun.h. -/
def IFF_TUN : Nat := 1

/-- `IFF_TAP` from linux/if_tun.h. -/
def IFF_TAP : Nat := 2

/-- `#define IP_HDR_LEN 20`. -/
def IP_HDR_LEN : Nat := 20

/-- `#define ETH_HDR_LEN 14`. -/
def ETH_HDR_LEN : Nat := 14

/-- `IFNAMSIZ` from linux/if.h. -/
def IFNAMSIZ : Nat := 16

/-- The bytes of `char MAGIC_WORD[] = "Wazaaaaaaaaaaahhhh !"`, including the
terminating NUL, so that `MAGIC_WORD.length` is `sizeof(MAGIC_WORD) = 21`.
The characters are `W a z`, eleven `a`, four `h`, a space, and `!`. -/
def MAGIC_WORD : List Nat :=
  [87, 97, 122, 97, 97, 97, 97, 97, 97, 97, 97, 97, 97, 97,
   104, 104, 104, 104, 32, 33, 0]

/-- `sizeof(MAGIC_WORD)`: the array size of the magic word, 21 bytes. -/
def sizeof_MAGIC_WORD : Nat := MAGIC_WORD.length

/-- C `strncmp` on byte lists: compare at most `n` bytes, stopping at the
first differing byte (returning its signed difference) or at a NUL byte
that both sides share. A position past the end of a list reads as 0,
matching a NUL-padded C buffer. -/
def strncmp : List Nat → List Nat → Nat → Int
  | _, _, 0 => 0
  | a, b, n + 1 =>
    let x := a.headD 0
    let y := b.headD 0
    if x = y then
      if x = 0 then 0 else strncmp a.tail b.tail n
    else Int.ofNat x - Int.ofNat y

/-- The third argument passed to `strncmp` by the client-side handshake
check in both variants, exactly as written in the source:
`strncmp(MAGIC_WORD, buffer, sizeof(MAGIC_WORD) != 0)`. The comparison
`sizeof(MAGIC_WORD) != 0` is evaluated first and yields the int 1, which
becomes the length argument. -/
def client_verify_len : Nat := if sizeof_MAGIC_WORD ≠ 0 then 1 else 0

/-- Overwriting the first `n` bytes of a fixed buffer with freshly read
bytes, as `read`/`recvfrom` do: the rest of the buffer keeps its previous
contents. -/
def listOverwrite (old new : List Nat) (n : Nat) : List Nat :=
  new.take n ++ old.drop n

/-- An observable action performed by one piece of the program, in source
order: a diagnostic on stderr (`perror`), an informational print, a
`sendto` on the UDP socket with its destination and length argument, an
assignment to the outbound peer-address variable, and a `write` to the
tun/tap interface with its length argument. -/
inductive Event where
  | perror (msg : String)
  | printf (msg : String)
  | sendto (dest : Addr) (len : Nat)
  | setRemote (a : Addr)
  | tapWrite (len : Nat)
deriving DecidableEq, Repr

/-- Whether a piece of straight-line code falls through to the code after
it (`next`, carrying the updated state) or terminates the process
(`exit code`). -/
inductive Outcome (σ : Type) where
  | next (s : σ)
  | exit (code : Nat)
deriving DecidableEq, Repr

/-- What `select` reported for one loop iteration: interrupted by a signal
(`ret < 0 && errno == EINTR`), failed for another reason (`ret < 0`
otherwise), or returned with the two readiness bits of interest. -/
inductive SelectResult where
  | intr
  | fail
  | ready (tap sock : Bool)
deriving DecidableEq, Repr

/-- The environment's response to `read(tap_fd, buffer, sizeof(buffer))`:
the return value and the frame bytes deposited when the return value is
positive. -/
structure TapInput where
  res : Int
  data : List Nat
deriving DecidableEq, Repr

/-- The environment's response to `recvfrom(sock_fd, buffer, sizeof(buffer),
0, addr, len)`: the return value, the datagram's source address (stored
into the address argument when the call succeeds), and the datagram
bytes. -/
structure SockInput where
  res : Int
  src : Addr
  data : List Nat
deriving DecidableEq, Repr

/-- Everything the environment decides during one relay-loop iteration:
the `select` outcome, the tap-read response, the `sendto` return value,
the socket-receive response, and the tap-write return value. -/
structure IterInput where
  sel : SelectResult
  tapIn : TapInput
  sendRes : Int
  sockIn : SockInput
  writeRes : Int
deriving DecidableEq, Repr

/-! ## Setup: binding the UDP socket

Each embedding takes the return value of `bind` and reflects the source's
handling of it: a diagnostic and/or `exit(1)`, or falling through. -/

/-- tunneludp_v1.c, client role (lines 289-292): `if (bind(...) < 0)
perror("bind");` — the diagnostic is printed but execution falls through
to the handshake in every case. -/
def v1_client_bind (bindRes : Int) : Outcome Unit × List Event :=
  (Outcome.next (), if bindRes < 0 then [Event.perror "bind"] else [])

/-- tunneludp_v1.c, server role (lines 328-331): `if (bind(...) < 0) {
perror("bind()"); exit(1); }`. -/
def v1_server_bind (bindRes : Int) : Outcome Unit × List Event :=
  if bindRes < 0 then (Outcome.exit 1, [Event.perror "bind()"])
  else (Outcome.next (), [])

/-- tunneludp_v2.c, client role (lines 213-216): `if (bind(...) < 0) {
perror("bind"); exit(1); }`. -/
def v2_client_bind (bindRes : Int) : Outcome Unit × List Event :=
  if bindRes < 0 then (Outcome.exit 1, [Event.perror "bind"])
  else (Outcome.next (), [])

/-- tunneludp_v2.c, server role (lines 247-250): `if (bind(...) < 0) {
perror("bind"); exit(1); }`. -/
def v2_server_bind (bindRes : Int) : Outcome Unit × List Event :=
  if bindRes < 0 then (Outcome.exit 1, [Event.perror "bind"])
  else (Outcome.next (), [])

/-! ## The handshake -/

/-- The environment's responses to the active-role handshake's two socket
calls: the `sendto` return value, the `recvfrom` return value, and the
reply datagram's source address and payload. -/
structure HsInput where
  sendRes : Int
  recvRes : Int
  replySrc : Addr
  reply : List Nat
deriving DecidableEq, Repr

/-- tunneludp_v1.c, client handshake (lines 300-308). Sends the magic word
to the configured target, receives a reply (whose source address
`recvfrom` stores back into `server_addr`, making it the peer), and checks
it with `strncmp(MAGIC_WORD, buffer, sizeof(MAGIC_WORD) != 0)` — a
mismatch only prints "Bad magic word for peer"; nothing exits, and the
code falls through to the relay loop with the address in `server_addr`. -/
def v1_client_handshake (target : Addr) (io : HsInput) : Addr × List Event :=
  let e1 : List Event := if io.sendRes < 0 then [Event.perror "sendto"] else []
  let sa : Addr := if 0 ≤ io.recvRes then io.replySrc else target
  let e2 : List Event := if io.recvRes < 0 then [Event.perror "recvfrom"] else []
  let e3 : List Event :=
    if strncmp MAGIC_WORD io.reply client_verify_len ≠ 0 then
      [Event.perror "Bad magic word for peer"]
    else []
  (sa, e1 ++ e2 ++ e3)

/-- tunneludp_v2.c, client handshake (lines 218-230). Same structure and
the same `strncmp(MAGIC_WORD, buffer, sizeof(MAGIC_WORD) != 0)` check as
v1, but a detected mismatch is `perror` + `exit(1)`; on fall-through the
reply's source address (stored into `server_addr` by `recvfrom`) becomes
`remote_addr`. -/
def v2_client_handshake (target : Addr) (io : HsInput) :
    Outcome Addr × List Event :=
  let e1 : List Event :=
    if io.sendRes < 0 then [Event.perror "sendto magic word"] else []
  let sa : Addr := if 0 ≤ io.recvRes then io.replySrc else target
  let e2 : List Event := if io.recvRes < 0 then [Event.perror "recvfrom"] else []
  if strncmp MAGIC_WORD io.reply client_verify_len ≠ 0 then
    (Outcome.exit 1, e1 ++ e2 ++ [Event.perror "Bad magic word for peer"])
  else
    (Outcome.next sa, e1 ++ e2)

/-- tunneludp_v1.c, server handshake loop (lines 339-345): receive
datagrams until one whose payload passes
`strncmp(MAGIC_WORD, buffer, sizeof(MAGIC_WORD)) == 0`; each failing
datagram only prints "Bad magic word from ..." and the loop continues.
Applied to the finite list of datagrams the environment delivers: the
result is the source address of the first matching one, or `none` when
every supplied datagram fails the check and the loop is still waiting. -/
def v1_server_handshake : List (Addr × List Nat) → Option Addr
  | [] => none
  | (src, payload) :: rest =>
    if strncmp MAGIC_WORD payload sizeof_MAGIC_WORD = 0 then some src
    else v1_server_handshake rest

/-- tunneludp_v2.c, server handshake (lines 256-261): a single `recvfrom`;
`if (strncmp(MAGIC_WORD, buffer, sizeof(MAGIC_WORD)) != 0) { perror("Bad
magic word for peer"); exit(1); }` — otherwise the sender becomes the
peer (echoed to and copied into `remote_addr`). -/
def v2_server_handshake (src : Addr) (payload : List Nat) : Outcome Addr :=
  if strncmp MAGIC_WORD payload sizeof_MAGIC_WORD ≠ 0 then Outcome.exit 1
  else Outcome.next src

/-! ## The v2 relay loop (tunneludp_v2.c lines 274-311) -/

/-- The in-memory state the v2 relay loop reads and writes: the outbound
peer address `remote_addr`, the `recvfrom` scratch address `read_addr`,
the 4096-byte frame buffer, and the two packet counters. -/
structure V2State where
  remote_addr : Addr
  read_addr : Addr
  buffer : List Nat
  tap_count : Nat
  sock_count : Nat
deriving DecidableEq, Repr

/-- tunneludp_v2.c lines 290-298, the `FD_ISSET(tap_fd, ...)` branch:
`read` into the buffer (any nonzero return triggers
`perror("read from virtual")`), `sendto(sock_fd, buffer, sizeof(buffer),
0, &remote_addr, ...)` with `perror("sendto network")` on a negative
return, then the per-packet print with `tap_count++`. -/
def v2_tap_branch (s : V2State) (tapIn : TapInput) (sendRes : Int) :
    V2State × List Event :=
  let buf : List Nat :=
    if 0 < tapIn.res then listOverwrite s.buffer tapIn.data tapIn.res.toNat
    else s.buffer
  let e1 : List Event :=
    if tapIn.res ≠ 0 then [Event.perror "read from virtual"] else []
  let e2 : List Event := [Event.sendto s.remote_addr BUFSIZE]
  let e3 : List Event :=
    if sendRes < 0 then [Event.perror "sendto network"] else []
  let e4 : List Event := [Event.printf "Get packet from virtual -> real NIC"]
  ({ s with buffer := buf, tap_count := s.tap_count + 1 },
   e1 ++ e2 ++ e3 ++ e4)

/-- tunneludp_v2.c lines 300-310, the `FD_ISSET(sock_fd, ...)` branch:
`recvfrom` into the buffer with the source stored into `read_addr` (any
nonzero return triggers `perror("read from network")`), then the
unconditional `remote_addr = read_addr;`, then `write(tap_fd, buffer,
sizeof(buffer))` with `perror("write to virtual")` on a negative return,
then the per-packet print with `sock_count++`. -/
def v2_sock_branch (s : V2State) (sockIn : SockInput) (writeRes : Int) :
    V2State × List Event :=
  let buf : List Nat :=
    if 0 < sockIn.res then listOverwrite s.buffer sockIn.data sockIn.res.toNat
    else s.buffer
  let rdA : Addr := if 0 ≤ sockIn.res then sockIn.src else s.read_addr
  let e1 : List Event :=
    if sockIn.res ≠ 0 then [Event.perror "read from network"] else []
  let e2 : List Event := [Event.setRemote rdA, Event.tapWrite BUFSIZE]
  let e3 : List Event :=
    if writeRes < 0 then [Event.perror "write to virtual"] else []
  let e4 : List Event := [Event.printf "Get packet from real -> virtual NIC"]
  ({ s with buffer := buf, read_addr := rdA, remote_addr := rdA,
            sock_count := s.sock_count + 1 },
   e1 ++ e2 ++ e3 ++ e4)

/-- One iteration of the v2 relay loop (lines 274-311): `select` on both
descriptors; `ret < 0 && errno == EINTR` → `continue` with nothing done;
any other `ret < 0` → `perror("select()"); exit(1)`; otherwise the tap
branch runs if the tap descriptor is ready and then the socket branch runs
if the socket is ready — two independent `if`s, not an `else` chain. -/
def v2_iter (s : V2State) (inp : IterInput) : Outcome V2State × List Event :=
  match inp.sel with
  | SelectResult.intr => (Outcome.next s, [])
  | SelectResult.fail => (Outcome.exit 1, [Event.perror "select()"])
  | SelectResult.ready tapR sockR =>
    let t : V2State × List Event :=
      if tapR then v2_tap_branch s inp.tapIn inp.sendRes else (s, [])
    let u : V2State × List Event :=
      if sockR then v2_sock_branch t.1 inp.sockIn inp.writeRes else (t.1, [])
    (Outcome.next u.1, t.2 ++ u.2)

/-! ## The v1 relay loop (tunneludp_v1.c lines 356-425) -/

/-- The in-memory state the v1 relay loop reads and writes: the role
(`cliserv`), the two address variables, and the frame buffer. The client
role sends to and receives "into" `server_addr`; the server role uses
`client_addr`. -/
structure V1State where
  cliserv : Nat
  server_addr : Addr
  client_addr : Addr
  buffer : List Nat
deriving DecidableEq, Repr

/-- tunneludp_v1.c lines 373-394, the `FD_ISSET(tap_fd, ...)` branch:
`read` into the buffer (nonzero return → `perror("read")`), then
`sendto(sock_fd, buffer, sizeof(buffer), 0, ...)` to `server_addr` in the
client role and to `client_addr` in the server role, with
`perror("sendto")` on a negative return. -/
def v1_tap_branch (s : V1State) (tapIn : TapInput) (sendRes : Int) :
    V1State × List Event :=
  let buf : List Nat :=
    if 0 < tapIn.res then listOverwrite s.buffer tapIn.data tapIn.res.toNat
    else s.buffer
  let e1 : List Event := if tapIn.res ≠ 0 then [Event.perror "read"] else []
  let dest : Addr := if s.cliserv = CLIENT then s.server_addr else s.client_addr
  let e2 : List Event := [Event.sendto dest BUFSIZE]
  let e3 : List Event := if sendRes < 0 then [Event.perror "sendto"] else []
  ({ s with buffer := buf }, e1 ++ e2 ++ e3)

/-- tunneludp_v1.c lines 396-424, the `FD_ISSET(sock_fd, ...)` branch:
`recvfrom` into the buffer with the datagram's source stored into
`&server_addr` (client role) or `&client_addr` (server role) — the very
variable the tap branch sends to — with `perror("read")` on a nonzero
return, then the "Get packet in UDP tunnel" print, then `write(tap_fd,
buffer, sizeof(buffer))` with `perror("write")` on a negative return. -/
def v1_sock_branch (s : V1State) (sockIn : SockInput) (writeRes : Int) :
    V1State × List Event :=
  let buf : List Nat :=
    if 0 < sockIn.res then listOverwrite s.buffer sockIn.data sockIn.res.toNat
    else s.buffer
  let s1 : V1State :=
    if s.cliserv = CLIENT then
      { s with buffer := buf,
               server_addr := if 0 ≤ sockIn.res then sockIn.src else s.server_addr }
    else
      { s with buffer := buf,
               client_addr := if 0 ≤ sockIn.res then sockIn.src else s.client_addr }
  let e1 : List Event :=
    if sockIn.res ≠ 0 then [Event.perror "read"] else []
  let e2 : List Event :=
    [Event.printf "Get packet in UDP tunnel", Event.tapWrite BUFSIZE]
  let e3 : List Event := if writeRes < 0 then [Event.perror "write"] else []
  (s1, e1 ++ e2 ++ e3)

/-- One iteration of the v1 relay loop (lines 356-425): same shape as v2 —
`EINTR` continues, any other `select` failure is `perror("select()");
exit(1)`, and the two `FD_ISSET` branches are independent `if`s run in
source order. -/
def v1_iter (s : V1State) (inp : IterInput) : Outcome V1State × List Event :=
  match inp.sel with
  | SelectResult.intr => (Outcome.next s, [])
  | SelectResult.fail => (Outcome.exit 1, [Event.perror "select()"])
  | SelectResult.ready tapR sockR =>
    let t : V1State × List Event :=
      if tapR then v1_tap_branch s inp.tapIn inp.sendRes else (s, [])
    let u : V1State × List Event :=
      if sockR then v1_sock_branch t.1 inp.sockIn inp.writeRes else (t.1, [])
    (Outcome.next u.1, t.2 ++ u.2)

/-! ## v1 option parsing (tunneludp_v1.c lines 218-250) -/

/-- The configuration variables the v1 `getopt` loop writes. There is no
`port` field: the declaration `unsigned short int port = PORT;` is
commented out in v1 and the sockets use the macro `PORT` directly. -/
structure V1Config where
  debug : Bool
  if_name : String
  flags : Nat
  header_len : Nat
  cliserv : Int
  server_ip : String
deriving DecidableEq, Repr

/-- The variable initializations in v1's `main` that the option loop then
updates. -/
def v1_initConfig : V1Config :=
  { debug := false, if_name := "", flags := IFF_TUN, header_len := IP_HDR_LEN,
    cliserv := -1, server_ip := "" }

/-- One case of the v1 `getopt` switch (lines 218-250). `'h'` and an
unknown option call `usage()`, which exits (`none`). The `'p'` case's body
is commented out (`//port = atoi(optarg);`), so it changes nothing. -/
def v1_handle_option (c : V1Config) : Char × String → Option V1Config
  | ('d', _) => some { c with debug := true }
  | ('h', _) => none
  | ('i', a) => some { c with if_name := a.take (IFNAMSIZ - 1) }
  | ('s', _) => some { c with cliserv := Int.ofNat SERVER }
  | ('c', a) => some { c with cliserv := Int.ofNat CLIENT,
                              server_ip := a.take 15 }
  | ('p', _) => some c
  | ('u', _) => some { c with flags := IFF_TUN }
  | ('a', _) => some { c with flags := IFF_TAP, header_len := ETH_HDR_LEN }
  | (_, _) => none

/-- The whole v1 option loop over the parsed `(option, optarg)` pairs the
command line yields, starting from the initial variable values; `none`
when some option made `usage()` exit. -/
def v1_parse_options (opts : List (Char × String)) : Option V1Config :=
  opts.foldlM v1_handle_option v1_initConfig

/-- The port the v1 client binds its socket to (line 291):
`client_addr.sin_port = htons(PORT);` — the macro, not a parsed value. -/
def v1_client_local_port (_c : V1Config) : Nat := v1_PORT

/-- The port of the v1 client's handshake target (line 296):
`server_addr.sin_port = htons(PORT);`. -/
def v1_client_target_port (_c : V1Config) : Nat := v1_PORT

/-- The port the v1 server binds its socket to (line 327):
`server_addr.sin_port = htons(PORT);`. -/
def v1_server_local_port (_c : V1Config) : Nat := v1_PORT

/-! ## Concrete fixtures

Small explicit states and iteration inputs used to instantiate the
theorems at concrete values. -/

/-- A concrete v1 relay-loop state: client role, handshake peer `⟨1, 1⟩`
in `server_addr`. -/
def sampleV1 : V1State :=
  { cliserv := 0, server_addr := ⟨1, 1⟩, client_addr := ⟨9, 9⟩, buffer := [] }

/-- A concrete v2 relay-loop state with tracked peer `⟨1, 1⟩`. -/
def sampleV2 : V2State :=
  { remote_addr := ⟨1, 1⟩, read_addr := ⟨0, 0⟩, buffer := [],
    tap_count := 0, sock_count := 0 }

/-- An iteration input where `select` was interrupted by a signal. -/
def intrInput : IterInput :=
  { sel := SelectResult.intr, tapIn := { res := 0, data := [] }, sendRes := 0,
    sockIn := { res := 0, src := ⟨0, 0⟩, data := [] }, writeRes := 0 }

/-- An iteration input where both descriptors are ready and every I/O
call fails with return value -1. -/
def allFailInput : IterInput :=
  { sel := SelectResult.ready true true, tapIn := { res := -1, data := [] },
    sendRes := -1, sockIn := { res := -1, src := ⟨3, 3⟩, data := [] },
    writeRes := -1 }

/-- An iteration input where both descriptors are ready and every call
succeeds: a 64-byte frame on the tap side and a 64-byte datagram from
`⟨3, 3⟩` on the socket side. -/
def bothReadyInput : IterInput :=
  { sel := SelectResult.ready true true,
    tapIn := { res := 64, data := List.replicate 64 7 }, sendRes := 4096,
    sockIn := { res := 64, src := ⟨3, 3⟩, data := List.replicate 64 9 },
    writeRes := 4096 }

/-- An iteration input where only the socket is ready, delivering a
64-byte datagram from source `⟨2, 2⟩`. -/
def sockOnlyInput : IterInput :=
  { sel := SelectResult.ready false true, tapIn := { res := 0, data := [] },
    sendRes := 0,
    sockIn := { res := 64, src := ⟨2, 2⟩, data := List.replicate 64 9 },
    writeRes := 4096 }

/-- An iteration input where only the tap interface is ready with a
64-byte frame. -/
def tapOnlyInput : IterInput :=
  { sel := SelectResult.ready true false,
    tapIn := { res := 64, data := List.replicate 64 7 }, sendRes := 4096,
    sockIn := { res := 0, src := ⟨0, 0⟩, data := [] }, writeRes := 0 }


/-- Claim C10: In v1, the `-p` option is dead: its `getopt` case body is
commented out, so it leaves the configuration unchanged wherever it
occurs on the command line, and the ports used for the client's local
bind, the client's handshake target, and the server's local bind are the
compile-time constant 55566 for every configuration. -/
theorem v1_port_option_has_no_effect (c : V1Config) (arg : String)
    (l1 l2 : List (Char × String)) :
    v1_handle_option c ('p', arg) = some c ∧
    v1_parse_options (l1 ++ ('p', arg) :: l2) = v1_parse_options (l1 ++ l2) ∧
    v1_client_local_port c = 55566 ∧
    v1_client_target_port c = 55566 ∧
    v1_server_local_port c = 55566 := by
  refine ⟨rfl, ?_, rfl, rfl, rfl⟩
  unfold v1_parse_options
  rw [List.foldlM_append, List.foldlM_append]
  cases h : l1.foldlM v1_handle_option v1_initConfig with
  | none => rfl
  | some b => simp [List.foldlM_cons, v1_handle_option]

/-- Claim C7: In both variants, a `select` failure with `EINTR` re-enters the
wait with the state unchanged and no observable action, while any other
`select` failure is `perror("select()")` followed by `exit(1)`. -/
theorem relay_select_interrupt_and_failure (s1 : V1State) (s2 : V2State)
    (inp : IterInput) :
    (inp.sel = SelectResult.intr →
      v1_iter s1 inp = (Outcome.next s1, []) ∧
      v2_iter s2 inp = (Outcome.next s2, [])) ∧
    (inp.sel = SelectResult.fail →
      v1_iter s1 inp = (Outcome.exit 1, [Event.perror "select()"]) ∧
      v2_iter s2 inp = (Outcome.exit 1, [Event.perror "select()"])) := by
  constructor
  · intro h
    constructor <;> simp [v1_iter, v2_iter, h]
  · intro h
    constructor <;> simp [v1_iter, v2_iter, h]

/-- Claim C7 instantiated at a concrete interrupted iteration. -/
theorem relay_select_interrupt_witness :
    (intrInput.sel = SelectResult.intr →
      v1_iter sampleV1 intrInput = (Outcome.next sampleV1, []) ∧
      v2_iter sampleV2 intrInput = (Outcome.next sampleV2, [])) ∧
    (intrInput.sel = SelectResult.fail →
      v1_iter sampleV1 intrInput = (Outcome.exit 1, [Event.perror "select()"]) ∧
      v2_iter sampleV2 intrInput = (Outcome.exit 1, [Event.perror "select()"])) :=
  relay_select_interrupt_and_failure sampleV1 sampleV2 intrInput

/-- Claim C5 fails as stated: in the v1 client, a failed `bind` is reported by
`perror("bind")` but the process does not terminate — execution falls
through to the handshake. -/
theorem v1_client_bind_failure_not_fatal :
    (-1 : Int) < 0 ∧
    v1_client_bind (-1) = (Outcome.next (), [Event.perror "bind"]) := by
  decide

/-- Claim C5 amended: on a failed `bind`, the v1 server and both v2 roles report
a diagnostic and exit with status 1, while the v1 client only reports the
diagnostic and proceeds. -/
theorem bind_failure_by_role_and_variant (r : Int) (h : r < 0) :
    v1_server_bind r = (Outcome.exit 1, [Event.perror "bind()"]) ∧
    v2_client_bind r = (Outcome.exit 1, [Event.perror "bind"]) ∧
    v2_server_bind r = (Outcome.exit 1, [Event.perror "bind"]) ∧
    v1_client_bind r = (Outcome.next (), [Event.perror "bind"]) := by
  simp [v1_server_bind, v2_client_bind, v2_server_bind, v1_client_bind, h]

/-- Claim C5 amended, instantiated at the concrete failing return value -1. -/
theorem bind_failure_witness :
    v1_server_bind (-1) = (Outcome.exit 1, [Event.perror "bind()"]) ∧
    v2_client_bind (-1) = (Outcome.exit 1, [Event.perror "bind"]) ∧
    v2_server_bind (-1) = (Outcome.exit 1, [Event.perror "bind"]) ∧
    v1_client_bind (-1) = (Outcome.next (), [Event.perror "bind"]) :=
  bind_failure_by_role_and_variant (-1) (by decide)

/-- Claim C3 fails as stated: the v2 passive endpoint receiving the non-token
payload "BAD" terminates with `exit(1)` instead of continuing to wait. -/
theorem v2_passive_bad_token_is_fatal :
    strncmp MAGIC_WORD [66, 65, 68, 0] sizeof_MAGIC_WORD ≠ 0 ∧
    v2_server_handshake ⟨10, 40000⟩ [66, 65, 68, 0] = Outcome.exit 1 := by
  decide

/-- Claim C3 amended: the v1 passive endpoint discards every non-matching
datagram without adopting its sender and keeps waiting — a later matching
datagram still completes the handshake with its sender as peer — while
the v2 passive endpoint treats its first datagram as decisive and a
non-matching payload is fatal. -/
theorem passive_bad_token_by_variant (src goodSrc : Addr) (payload : List Nat)
    (ds : List (Addr × List Nat))
    (hbad : strncmp MAGIC_WORD payload sizeof_MAGIC_WORD ≠ 0)
    (hall : ∀ d ∈ ds, strncmp MAGIC_WORD d.2 sizeof_MAGIC_WORD ≠ 0) :
    v1_server_handshake ds = none ∧
    v1_server_handshake (ds ++ [(goodSrc, MAGIC_WORD)]) = some goodSrc ∧
    v2_server_handshake src payload = Outcome.exit 1 := by
  refine ⟨?_, ?_, ?_⟩
  · induction ds with
    | nil => rfl
    | cons d rest ih =>
      have hd := hall d (by simp)
      simp [v1_server_handshake, hd]
      exact ih fun x hx => hall x (by simp [hx])
  · induction ds with
    | nil =>
      have hm : strncmp MAGIC_WORD MAGIC_WORD sizeof_MAGIC_WORD = 0 := by decide
      simp [v1_server_handshake, hm]
    | cons d rest ih =>
      have hd := hall d (by simp)
      simp [v1_server_handshake, hd]
      exact ih fun x hx => hall x (by simp [hx])
  · simp [v2_server_handshake, hbad]

/-- Claim C3 amended, instantiated at a concrete bad datagram followed by the real token. -/
theorem passive_bad_token_witness :
    v1_server_handshake [(⟨7, 7⟩, [66, 65, 68, 0])] = none ∧
    v1_server_handshake ([(⟨7, 7⟩, [66, 65, 68, 0])] ++ [(⟨8, 8⟩, MAGIC_WORD)]) =
      some ⟨8, 8⟩ ∧
    v2_server_handshake ⟨10, 40000⟩ [66, 65, 68, 0] = Outcome.exit 1 :=
  passive_bad_token_by_variant ⟨10, 40000⟩ ⟨8, 8⟩ [66, 65, 68, 0]
    [(⟨7, 7⟩, [66, 65, 68, 0])] (by decide) (by decide)

/-- Claim C4: the active-role token verification is broken in the code. The
misplaced parenthesis `strncmp(MAGIC_WORD, buffer, sizeof(MAGIC_WORD) !=
0)` passes length 1, so only the first byte is compared: the reply
"Wxx" (first byte `W` = 87, rest wrong) differs from the token over its
full length yet passes the check, and the v2 client proceeds to the relay
loop adopting the replier as peer. Moreover in v1 even a detected
first-byte mismatch ("X") is merely reported — the v1 client still falls
through to the relay loop with the replier as peer. -/
theorem active_token_check_is_one_byte_and_v1_nonfatal :
    client_verify_len = 1 ∧
    strncmp MAGIC_WORD [87, 120, 120, 0] sizeof_MAGIC_WORD ≠ 0 ∧
    strncmp MAGIC_WORD [87, 120, 120, 0] client_verify_len = 0 ∧
    v2_client_handshake ⟨10, 5588⟩
        { sendRes := 21, recvRes := 21, replySrc := ⟨10, 5588⟩,
          reply := [87, 120, 120, 0] } =
      (Outcome.next ⟨10, 5588⟩, []) ∧
    v1_client_handshake ⟨10, 5588⟩
        { sendRes := 21, recvRes := 21, replySrc := ⟨10, 5588⟩,
          reply := [88, 0] } =
      (⟨10, 5588⟩, [Event.perror "Bad magic word for peer"]) := by
  decide

/-- Claim C2: in both variants, every datagram sent from the relay loop and
every write to the interface passes length `sizeof(buffer)` = BUFSIZE =
4096, whatever the preceding read or receive returned. -/
theorem relay_transfers_move_full_buffer (s1 : V1State) (s2 : V2State)
    (inp : IterInput) :
    BUFSIZE = 4096 ∧
    (∀ a n, Event.sendto a n ∈ (v1_iter s1 inp).2 → n = BUFSIZE) ∧
    (∀ n, Event.tapWrite n ∈ (v1_iter s1 inp).2 → n = BUFSIZE) ∧
    (∀ a n, Event.sendto a n ∈ (v2_iter s2 inp).2 → n = BUFSIZE) ∧
    (∀ n, Event.tapWrite n ∈ (v2_iter s2 inp).2 → n = BUFSIZE) := by
  obtain ⟨sel, tapIn, sendRes, sockIn, writeRes⟩ := inp
  cases sel with
  | intr => refine ⟨rfl, ?_, ?_, ?_, ?_⟩ <;> simp [v1_iter, v2_iter]
  | fail => refine ⟨rfl, ?_, ?_, ?_, ?_⟩ <;> simp [v1_iter, v2_iter]
  | ready t k =>
    refine ⟨rfl, ?_, ?_, ?_, ?_⟩ <;>
      cases t <;> cases k <;>
        simp [v1_iter, v2_iter, v1_tap_branch, v1_sock_branch,
              v2_tap_branch, v2_sock_branch]

/-- Claim C2 instantiated at a concrete both-ready iteration with 64-byte payloads. -/
theorem relay_transfers_witness :
    BUFSIZE = 4096 ∧
    (∀ a n, Event.sendto a n ∈ (v1_iter sampleV1 bothReadyInput).2 →
      n = BUFSIZE) ∧
    (∀ n, Event.tapWrite n ∈ (v1_iter sampleV1 bothReadyInput).2 →
      n = BUFSIZE) ∧
    (∀ a n, Event.sendto a n ∈ (v2_iter sampleV2 bothReadyInput).2 →
      n = BUFSIZE) ∧
    (∀ n, Event.tapWrite n ∈ (v2_iter sampleV2 bothReadyInput).2 →
      n = BUFSIZE) :=
  relay_transfers_move_full_buffer sampleV1 sampleV2 bothReadyInput

/-- Claim C6: once `select` reported readiness, a failing read, send, receive,
or write inside the iteration yields its diagnostic yet the iteration
still ends with the loop continuing to the next wait, in both
variants. -/
theorem relay_io_failures_reported_not_fatal (s1 : V1State) (s2 : V2State)
    (inp : IterInput) (t k : Bool) (hsel : inp.sel = SelectResult.ready t k) :
    (∃ s, (v1_iter s1 inp).1 = Outcome.next s) ∧
    (∃ s, (v2_iter s2 inp).1 = Outcome.next s) ∧
    (t = true → inp.tapIn.res < 0 →
      Event.perror "read" ∈ (v1_iter s1 inp).2 ∧
      Event.perror "read from virtual" ∈ (v2_iter s2 inp).2) ∧
    (t = true → inp.sendRes < 0 →
      Event.perror "sendto" ∈ (v1_iter s1 inp).2 ∧
      Event.perror "sendto network" ∈ (v2_iter s2 inp).2) ∧
    (k = true → inp.sockIn.res < 0 →
      Event.perror "read" ∈ (v1_iter s1 inp).2 ∧
      Event.perror "read from network" ∈ (v2_iter s2 inp).2) ∧
    (k = true → inp.writeRes < 0 →
      Event.perror "write" ∈ (v1_iter s1 inp).2 ∧
      Event.perror "write to virtual" ∈ (v2_iter s2 inp).2) := by
  obtain ⟨sel, tapIn, sendRes, sockIn, writeRes⟩ := inp
  simp only at hsel
  subst hsel
  refine ⟨⟨_, rfl⟩, ⟨_, rfl⟩, ?_, ?_, ?_, ?_⟩
  · rintro rfl h
    simp only at h
    have h0 : tapIn.res ≠ 0 := by omega
    cases k <;>
      constructor <;>
        simp [v1_iter, v2_iter, v1_tap_branch, v1_sock_branch,
              v2_tap_branch, v2_sock_branch, h0]
  · rintro rfl h
    cases k <;>
      constructor <;>
        simp [v1_iter, v2_iter, v1_tap_branch, v1_sock_branch,
              v2_tap_branch, v2_sock_branch, h]
  · rintro rfl h
    simp only at h
    have h0 : sockIn.res ≠ 0 := by omega
    cases t <;>
      constructor <;>
        simp [v1_iter, v2_iter, v1_tap_branch, v1_sock_branch,
              v2_tap_branch, v2_sock_branch, h0]
  · rintro rfl h
    cases t <;>
      constructor <;>
        simp [v1_iter, v2_iter, v1_tap_branch, v1_sock_branch,
              v2_tap_branch, v2_sock_branch, h]

/-- Claim C6 instantiated at a concrete iteration in which all four calls fail. -/
theorem relay_io_failures_witness :
    (∃ s, (v1_iter sampleV1 allFailInput).1 = Outcome.next s) ∧
    (∃ s, (v2_iter sampleV2 allFailInput).1 = Outcome.next s) ∧
    (true = true → allFailInput.tapIn.res < 0 →
      Event.perror "read" ∈ (v1_iter sampleV1 allFailInput).2 ∧
      Event.perror "read from virtual" ∈ (v2_iter sampleV2 allFailInput).2) ∧
    (true = true → allFailInput.sendRes < 0 →
      Event.perror "sendto" ∈ (v1_iter sampleV1 allFailInput).2 ∧
      Event.perror "sendto network" ∈ (v2_iter sampleV2 allFailInput).2) ∧
    (true = true → allFailInput.sockIn.res < 0 →
      Event.perror "read" ∈ (v1_iter sampleV1 allFailInput).2 ∧
      Event.perror "read from network" ∈ (v2_iter sampleV2 allFailInput).2) ∧
    (true = true → allFailInput.writeRes < 0 →
      Event.perror "write" ∈ (v1_iter sampleV1 allFailInput).2 ∧
      Event.perror "write to virtual" ∈ (v2_iter sampleV2 allFailInput).2) :=
  relay_io_failures_reported_not_fatal sampleV1 sampleV2 allFailInput
    true true rfl


/-- Claim C8 fails as stated: at a concrete v2 state and a both-ready `select`
report, the very same iteration both sends a datagram to the peer and
writes a buffer to the interface — both sources are drained. -/
theorem both_ready_one_iteration_moves_both :
    Event.sendto ⟨1, 1⟩ BUFSIZE ∈ (v2_iter sampleV2 bothReadyInput).2 ∧
    Event.tapWrite BUFSIZE ∈ (v2_iter sampleV2 bothReadyInput).2 ∧
    Event.sendto ⟨1, 1⟩ BUFSIZE ∈ (v1_iter sampleV1 bothReadyInput).2 ∧
    Event.tapWrite BUFSIZE ∈ (v1_iter sampleV1 bothReadyInput).2 := by
  decide

/-- Claim C8 amended: each source is drained at most once per iteration, but
when `select` reports both ready the iteration drains both, the
interface-to-socket transfer first: the trace holds exactly one `sendto`
and exactly one interface write, in that order, in both variants. -/
theorem both_ready_drains_each_source_once (s1 : V1State) (s2 : V2State)
    (inp : IterInput) (hsel : inp.sel = SelectResult.ready true true) :
    [Event.sendto (if s1.cliserv = CLIENT then s1.server_addr
                   else s1.client_addr) BUFSIZE,
     Event.tapWrite BUFSIZE].Sublist (v1_iter s1 inp).2 ∧
    [Event.sendto s2.remote_addr BUFSIZE,
     Event.tapWrite BUFSIZE].Sublist (v2_iter s2 inp).2 ∧
    ((v1_iter s1 inp).2.countP fun e => match e with
      | Event.sendto _ _ => true
      | _ => false) = 1 ∧
    ((v1_iter s1 inp).2.countP fun e => match e with
      | Event.tapWrite _ => true
      | _ => false) = 1 ∧
    ((v2_iter s2 inp).2.countP fun e => match e with
      | Event.sendto _ _ => true
      | _ => false) = 1 ∧
    ((v2_iter s2 inp).2.countP fun e => match e with
      | Event.tapWrite _ => true
      | _ => false) = 1 := by
  obtain ⟨sel, tapIn, sendRes, sockIn, writeRes⟩ := inp
  simp only at hsel
  subst hsel
  refine ⟨?_, ?_, ?_, ?_, ?_, ?_⟩ <;>
    simp [v1_iter, v2_iter, v1_tap_branch, v1_sock_branch,
          v2_tap_branch, v2_sock_branch, List.countP_append] <;>
    split_ifs <;>
    simp [List.Sublist, List.countP_cons]


/-- Claim C8 amended, instantiated at the concrete both-ready iteration. -/
theorem both_ready_drains_witness :
    [Event.sendto (if sampleV1.cliserv = CLIENT then sampleV1.server_addr
                   else sampleV1.client_addr) BUFSIZE,
     Event.tapWrite BUFSIZE].Sublist (v1_iter sampleV1 bothReadyInput).2 ∧
    [Event.sendto sampleV2.remote_addr BUFSIZE,
     Event.tapWrite BUFSIZE].Sublist (v2_iter sampleV2 bothReadyInput).2 ∧
    ((v1_iter sampleV1 bothReadyInput).2.countP fun e => match e with
      | Event.sendto _ _ => true
      | _ => false) = 1 ∧
    ((v1_iter sampleV1 bothReadyInput).2.countP fun e => match e with
      | Event.tapWrite _ => true
      | _ => false) = 1 ∧
    ((v2_iter sampleV2 bothReadyInput).2.countP fun e => match e with
      | Event.sendto _ _ => true
      | _ => false) = 1 ∧
    ((v2_iter sampleV2 bothReadyInput).2.countP fun e => match e with
      | Event.tapWrite _ => true
      | _ => false) = 1 :=
  both_ready_drains_each_source_once sampleV1 sampleV2 bothReadyInput rfl

/-- Claim C1: in the v2 relay loop, a datagram arriving from `Q` while the
tracker holds `P ≠ Q` makes the iteration continue into a state whose
tracked peer is `Q`; the assignment to `remote_addr` precedes the
interface write in the iteration's trace; and any later iteration whose
interface side is ready sends its datagram to `Q` and to no port or host
of `P`. -/
theorem v2_relay_last_sender_wins (s : V2State) (P Q : Addr)
    (inp : IterInput) (_hP : s.remote_addr = P) (hQ : Q ≠ P)
    (hsel : inp.sel = SelectResult.ready false true)
    (hres : 0 ≤ inp.sockIn.res) (hsrc : inp.sockIn.src = Q) :
    ∃ s' : V2State,
      (v2_iter s inp).1 = Outcome.next s' ∧
      s'.remote_addr = Q ∧
      [Event.setRemote Q, Event.tapWrite BUFSIZE].Sublist (v2_iter s inp).2 ∧
      ∀ inp2 : IterInput, ∀ k : Bool, inp2.sel = SelectResult.ready true k →
        Event.sendto Q BUFSIZE ∈ (v2_iter s' inp2).2 ∧
        ∀ n : Nat, Event.sendto P n ∉ (v2_iter s' inp2).2 := by
  obtain ⟨sel, tapIn, sendRes, sockIn, writeRes⟩ := inp
  simp only at hsel hres hsrc
  subst hsel
  subst hsrc
  refine ⟨(v2_sock_branch s sockIn writeRes).1, ?_, ?_, ?_, ?_⟩
  · simp [v2_iter]
  · simp [v2_sock_branch, hres]
  · simp [v2_iter, v2_sock_branch, hres]
  · intro inp2 k hsel2
    obtain ⟨sel2, tapIn2, sendRes2, sockIn2, writeRes2⟩ := inp2
    simp only at hsel2
    subst hsel2
    have hrm : (v2_sock_branch s sockIn writeRes).1.remote_addr = sockIn.src := by
      simp [v2_sock_branch, hres]
    constructor
    · cases k <;>
        simp [v2_iter, v2_tap_branch, v2_sock_branch, hrm, hres]
    · intro n
      cases k <;>
        simp [v2_iter, v2_tap_branch, v2_sock_branch, hrm, hres] <;>
        exact fun hpe => (hQ hpe.symm).elim


/-- Claim C1 instantiated at a concrete state: tracker `⟨1, 1⟩`, datagram from `⟨2, 2⟩`. -/
theorem v2_last_sender_wins_witness :
    ∃ s' : V2State,
      (v2_iter sampleV2 sockOnlyInput).1 = Outcome.next s' ∧
      s'.remote_addr = ⟨2, 2⟩ ∧
      [Event.setRemote ⟨2, 2⟩, Event.tapWrite BUFSIZE].Sublist
        (v2_iter sampleV2 sockOnlyInput).2 ∧
      ∀ inp2 : IterInput, ∀ k : Bool, inp2.sel = SelectResult.ready true k →
        Event.sendto ⟨2, 2⟩ BUFSIZE ∈ (v2_iter s' inp2).2 ∧
        ∀ n : Nat, Event.sendto ⟨1, 1⟩ n ∉ (v2_iter s' inp2).2 :=
  v2_relay_last_sender_wins sampleV2 ⟨1, 1⟩ ⟨2, 2⟩ sockOnlyInput rfl
    (by decide) rfl (by decide) rfl

/-- Claim C9 fails as stated: the v1 client that completed its handshake with
peer `⟨1, 1⟩` receives a relay-loop datagram from `⟨2, 2⟩`; `recvfrom`
stores the source into `server_addr`, and the next interface-ready
iteration sends to `⟨2, 2⟩`, not to the handshake peer `⟨1, 1⟩`. -/
theorem v1_destination_follows_last_sender :
    (v1_iter sampleV1 sockOnlyInput).1 =
      Outcome.next (⟨0, ⟨2, 2⟩, ⟨9, 9⟩, List.replicate 64 9⟩ : V1State) ∧
    Event.sendto ⟨2, 2⟩ BUFSIZE ∈
      (v1_iter (⟨0, ⟨2, 2⟩, ⟨9, 9⟩, List.replicate 64 9⟩ : V1State)
        tapOnlyInput).2 ∧
    Event.sendto ⟨1, 1⟩ BUFSIZE ∉
      (v1_iter (⟨0, ⟨2, 2⟩, ⟨9, 9⟩, List.replicate 64 9⟩ : V1State)
        tapOnlyInput).2 := by
  decide

/-- Claim C9 amended: v1 has no explicit tracker assignment, but its relay loop
passes the outbound-destination variable (`server_addr` in the client
role, `client_addr` in the server role) as `recvfrom`'s source-address
out-parameter, so every successfully received datagram overwrites the
destination: subsequent outbound datagrams go to the most recent sender,
the same last-sender-wins behavior as v2. -/
theorem v1_relay_also_follows_last_sender (s : V1State) (P Q : Addr)
    (inp : IterInput)
    (_hP : (if s.cliserv = CLIENT then s.server_addr else s.client_addr) = P)
    (hQ : Q ≠ P) (hsel : inp.sel = SelectResult.ready false true)
    (hres : 0 ≤ inp.sockIn.res) (hsrc : inp.sockIn.src = Q) :
    ∃ s' : V1State,
      (v1_iter s inp).1 = Outcome.next s' ∧
      (if s'.cliserv = CLIENT then s'.server_addr else s'.client_addr) = Q ∧
      ∀ inp2 : IterInput, ∀ k : Bool, inp2.sel = SelectResult.ready true k →
        Event.sendto Q BUFSIZE ∈ (v1_iter s' inp2).2 ∧
        ∀ n : Nat, Event.sendto P n ∉ (v1_iter s' inp2).2 := by
  obtain ⟨cs, sa, ca, buf⟩ := s
  obtain ⟨sel, tapIn, sendRes, sockIn, writeRes⟩ := inp
  simp only at hsel hres hsrc
  subst hsel
  subst hsrc
  refine ⟨(v1_sock_branch ⟨cs, sa, ca, buf⟩ sockIn writeRes).1, ?_, ?_, ?_⟩
  · simp [v1_iter]
  · by_cases hc : cs = CLIENT <;>
      simp [v1_sock_branch, hres, hc]
  · intro inp2 k hsel2
    obtain ⟨sel2, tapIn2, sendRes2, sockIn2, writeRes2⟩ := inp2
    simp only at hsel2
    subst hsel2
    by_cases hc : cs = CLIENT <;>
      constructor
    · cases k <;>
        simp [v1_iter, v1_tap_branch, v1_sock_branch, hres, hc]
    · intro n
      cases k <;>
        simp [v1_iter, v1_tap_branch, v1_sock_branch, hres, hc] <;>
        exact fun hpe => (hQ hpe.symm).elim
    · cases k <;>
        simp [v1_iter, v1_tap_branch, v1_sock_branch, hres, hc]
    · intro n
      cases k <;>
        simp [v1_iter, v1_tap_branch, v1_sock_branch, hres, hc] <;>
        exact fun hpe => (hQ hpe.symm).elim

/-- Claim C9 amended, instantiated at the concrete inputs of the counterexample. -/
theorem v1_follows_last_sender_witness :
    ∃ s' : V1State,
      (v1_iter sampleV1 sockOnlyInput).1 = Outcome.next s' ∧
      (if s'.cliserv = CLIENT then s'.server_addr else s'.client_addr) =
        ⟨2, 2⟩ ∧
      ∀ inp2 : IterInput, ∀ k : Bool, inp2.sel = SelectResult.ready true k →
        Event.sendto ⟨2, 2⟩ BUFSIZE ∈ (v1_iter s' inp2).2 ∧
        ∀ n : Nat, Event.sendto ⟨1, 1⟩ n ∉ (v1_iter s' inp2).2 :=
  v1_relay_also_follows_last_sender sampleV1 ⟨1, 1⟩ ⟨2, 2⟩ sockOnlyInput rfl
    (by decide) rfl (by decide) rfl

end Tunnel
